import Mathlib

/-!
Verification of the classification-and-aggregation core of the Degen Index
demo (`ingest_demo.py`).

The core consists of `mock_classify_comment`, a rule-based classifier that
maps a raw comment body to a structured classification record, and the
summary fold at the end of `main` that aggregates a batch of classification
records into count, unique tickers, direction tallies and an average degen
score.

Embedding conventions:
- Python strings are embedded as `List Char`; `needle in haystack`
  (substring containment) is `py_in`; `str.lower`/`str.upper` are
  character-wise ASCII case maps, which agree with Python on the ASCII
  vocabularies the classifier uses.
- Python integers are `Int` (scores) and `Nat` (counts/lengths); the final
  true division producing the average is exact rational division, with the
  `ZeroDivisionError` raised by Python on an empty batch embedded as the
  `none` case of an `Option ℚ`.
- The single random channel, `random.choice(MOODS)` drawn for
  `primary_mood`, is made explicit and injectable as the `mood_draw`
  parameter: a fixed seeded random source yields a fixed draw.
-/

namespace DegenIndex

/-- Python substring containment `needle in haystack` on embedded strings. -/
def py_in (needle : List Char) : List Char → Bool
  | [] => needle.isEmpty
  | c :: rest => needle.isPrefixOf (c :: rest) || py_in needle rest

/-- Python `str.lower` restricted to ASCII (the classifier vocabularies are ASCII). -/
def py_lower (s : List Char) : List Char := s.map Char.toLower

/-- Python `str.upper` restricted to ASCII. -/
def py_upper (s : List Char) : List Char := s.map Char.toUpper

/-- ASCII apostrophe, used inside two meme-vocabulary entries. -/
def apos : Char := Char.ofNat 39

/-- Ticker vocabulary `COMMON_TICKERS` from the source. -/
def COMMON_TICKERS : List (List Char) :=
  ["SPY".toList, "QQQ".toList, "NVDA".toList, "TSLA".toList, "AAPL".toList,
   "AMD".toList, "AMZN".toList, "META".toList, "GOOGL".toList, "MSFT".toList]

/-- Mood enum `MOODS` from the source. -/
inductive Mood : Type where
  | euphoria | fear | despair | cope | smug | confusion | neutral
  deriving DecidableEq

/-- Trade-direction enum `DIRECTIONS` from the source. -/
inductive Direction : Type where
  | bullish | bearish | mixed | neutral
  deriving DecidableEq

/-- Topic-type enum from the classification schema. -/
inductive TopicType : Type where
  | single_stock | index_macro | other
  deriving DecidableEq

/-- Bullish keyword vocabulary `bullish_words` from the source. -/
def bullish_words : List (List Char) :=
  ["moon".toList, "calls".toList, "buy".toList, "long".toList, "rocket".toList,
   "tendies".toList, "print".toList]

/-- Bearish keyword vocabulary `bearish_words` from the source. -/
def bearish_words : List (List Char) :=
  ["puts".toList, "short".toList, "drill".toList, "crash".toList, "dump".toList,
   "rug".toList]

/-- Trade-action keyword vocabulary `trade_indicators` from the source. -/
def trade_indicators : List (List Char) :=
  ["bought".toList, "buying".toList, "sold".toList, "selling".toList,
   "holding".toList, "position".toList, "calls".toList, "puts".toList]

/-- Meme/humor keyword vocabulary `meme_indicators` from the source; two
entries contain an apostrophe, assembled here from `apos`. -/
def meme_indicators : List (List Char) :=
  ["lmao".toList, "lol".toList, "ape".toList, "smooth brain".toList,
   "wife".toList ++ [apos] ++ "s boyfriend".toList,
   "wendy".toList ++ [apos] ++ "s".toList]

/-- Sarcasm marker literal checked against the raw (uncased) body. -/
def sarcasm_marker : List Char := "/s".toList

/-- Line 57: `found_tickers = [t for t in COMMON_TICKERS if t in body_upper]`. -/
def found_tickers (body : List Char) : List (List Char) :=
  COMMON_TICKERS.filter (fun t => py_in t (py_upper body))

/-- Line 63: number of bullish vocabulary entries occurring in the lower-cased body. -/
def bullish_count (body : List Char) : Nat :=
  bullish_words.countP (fun w => py_in w (py_lower body))

/-- Line 64: number of bearish vocabulary entries occurring in the lower-cased body. -/
def bearish_count (body : List Char) : Nat :=
  bearish_words.countP (fun w => py_in w (py_lower body))

/-- Line 75: `is_trade = any(w in body.lower() for w in trade_indicators)`. -/
def is_trade (body : List Char) : Bool :=
  trade_indicators.any (fun w => py_in w (py_lower body))

/-- Line 79: number of meme vocabulary entries occurring in the lower-cased body. -/
def meme_count (body : List Char) : Nat :=
  meme_indicators.countP (fun w => py_in w (py_lower body))

/-- Nested `sentiment` object of the classification schema. -/
structure Sentiment : Type where
  trade_direction : Direction
  sentiment_confidence : Int
  is_sarcastic : Bool
  deriving DecidableEq

/-- Classification record: the schema returned by `mock_classify_comment`. -/
structure ClassificationRecord : Type where
  is_trade_plan : Bool
  is_meme : Bool
  is_commentary : Bool
  tickers : List (List Char)
  primary_mood : Mood
  topic_type : TopicType
  sentiment : Sentiment
  degen_score : Int
  meme_score : Int
  deriving DecidableEq

/-- Embedding of `mock_classify_comment` (lines 36-95). `mood_draw` is the
value the injected random source yields for `random.choice(MOODS)`; it is
consulted only in the `meme_count = 0` branch of `primary_mood`. -/
def mock_classify_comment (body : List Char) (mood_draw : Mood) : ClassificationRecord :=
  { is_trade_plan := is_trade body
    is_meme := decide (2 ≤ meme_count body)
    is_commentary := !is_trade body || decide (0 < (found_tickers body).length)
    tickers := found_tickers body
    primary_mood := if meme_count body = 0 then mood_draw else Mood.euphoria
    topic_type :=
      if (found_tickers body).length = 1 then TopicType.single_stock
      else if found_tickers body ≠ [] then TopicType.index_macro
      else TopicType.other
    sentiment :=
      { trade_direction :=
          if bullish_count body > bearish_count body then Direction.bullish
          else if bearish_count body > bullish_count body then Direction.bearish
          else Direction.neutral
        sentiment_confidence :=
          min 10 (max 1 ((bullish_count body : Int) + (bearish_count body : Int) + 3))
        is_sarcastic := py_in sarcasm_marker body || decide (2 ≤ meme_count body) }
    degen_score :=
      min 10 (3 + (meme_count body : Int) + (if is_trade body then 2 else 0))
    meme_score := min 10 ((meme_count body : Int) * 3) }

/-- Batch summary computed at the end of `main` (lines 208-219). -/
structure Summary : Type where
  count : Nat
  unique_tickers : Finset (List Char)
  bullish_total : Nat
  bearish_total : Nat
  neutral_total : Nat
  average_degen_score : Option ℚ

/-- Lines 208-210: concatenation of every record's tickers. -/
def all_tickers (cs : List ClassificationRecord) : List (List Char) :=
  (cs.map (fun c => c.tickers)).flatten

/-- Line 219: `sum(c['degen_score'] for c in classifications) / len(classifications)`.
Python true division raises `ZeroDivisionError` on an empty batch, embedded
as `none`; otherwise the exact rational mean is returned. -/
def average_degen_score (cs : List ClassificationRecord) : Option ℚ :=
  if cs.length = 0 then none
  else some ((((cs.map (fun c => c.degen_score)).sum : Int) : ℚ) / (cs.length : ℚ))

/-- Summary fold of `main` (lines 208-219). -/
def summarize (cs : List ClassificationRecord) : Summary :=
  { count := cs.length
    unique_tickers := (all_tickers cs).toFinset
    bullish_total := cs.countP (fun c => c.sentiment.trade_direction == Direction.bullish)
    bearish_total := cs.countP (fun c => c.sentiment.trade_direction == Direction.bearish)
    neutral_total := cs.length
      - cs.countP (fun c => c.sentiment.trade_direction == Direction.bullish)
      - cs.countP (fun c => c.sentiment.trade_direction == Direction.bearish)
    average_degen_score := average_degen_score cs }

/-- Sample comment body used to exercise the aggregator on concrete records. -/
def sample_body_a : List Char := "I just bought SPY calls, to the moon! lol".toList

/-- Second sample comment body used to exercise the aggregator. -/
def sample_body_b : List Char := "puts on TSLA, market crash incoming".toList

/-- Concrete classification record obtained from `sample_body_a`. -/
def sample_record_a : ClassificationRecord := mock_classify_comment sample_body_a Mood.fear

/-- Concrete classification record obtained from `sample_body_b`. -/
def sample_record_b : ClassificationRecord := mock_classify_comment sample_body_b Mood.smug

/-- Shared helper: every classification record has `degen_score` between 3 and 10. -/
lemma degen_score_bounds (body : List Char) (d : Mood) :
    3 ≤ (mock_classify_comment body d).degen_score ∧
      (mock_classify_comment body d).degen_score ≤ 10 := by
  simp only [mock_classify_comment]
  rcases is_trade body <;> constructor <;> omega

/-- C1: summarizing an empty batch yields the distinct, explicitly checkable
empty-batch failure value `none` (the `ZeroDivisionError` Python raises at
`sum(...) / len(...)` on zero records) rather than a silent zero or NaN, and
for every non-empty batch the average is `some q` with `q` the arithmetic
mean of the records' `degen_score` values, characterized by
`q * count = total`. -/
theorem summarize_empty_batch_detectable (cs : List ClassificationRecord) (h : cs ≠ []) :
    (summarize []).average_degen_score = none ∧
    ∃ q : ℚ, (summarize cs).average_degen_score = some q ∧
      q * (cs.length : ℚ) = (((cs.map (fun c => c.degen_score)).sum : Int) : ℚ) := by
  refine ⟨rfl, ?_⟩
  have hz : cs.length ≠ 0 := fun hh => h (List.length_eq_zero.mp hh)
  have hq : (cs.length : ℚ) ≠ 0 := Nat.cast_ne_zero.mpr hz
  refine ⟨(((cs.map (fun c => c.degen_score)).sum : Int) : ℚ) / (cs.length : ℚ), ?_, ?_⟩
  · simp [summarize, average_degen_score, hz]
  · field_simp

/-- Witness for C1 at the one-record batch classifying the empty body. -/
theorem summarize_empty_batch_detectable_witness :
    (summarize []).average_degen_score = none ∧
    ∃ q : ℚ,
      (summarize [mock_classify_comment [] Mood.neutral]).average_degen_score = some q ∧
      q * (([mock_classify_comment [] Mood.neutral] : List ClassificationRecord).length : ℚ) =
        (((([mock_classify_comment [] Mood.neutral] : List ClassificationRecord).map
            (fun c => c.degen_score)).sum : Int) : ℚ) :=
  summarize_empty_batch_detectable [mock_classify_comment [] Mood.neutral]
    (List.cons_ne_nil _ _)

/-- C2: classification is total (the embedding is a total function, matching
the code's absence of raising paths) and, for every body and every random
draw, each numeric field lies in its documented closed interval:
`sentiment_confidence` in [1,10], `degen_score` in [0,10], `meme_score` in
[0,10]. -/
theorem classify_total_and_scores_in_range (body : List Char) (mood_draw : Mood) :
    1 ≤ (mock_classify_comment body mood_draw).sentiment.sentiment_confidence ∧
    (mock_classify_comment body mood_draw).sentiment.sentiment_confidence ≤ 10 ∧
    0 ≤ (mock_classify_comment body mood_draw).degen_score ∧
    (mock_classify_comment body mood_draw).degen_score ≤ 10 ∧
    0 ≤ (mock_classify_comment body mood_draw).meme_score ∧
    (mock_classify_comment body mood_draw).meme_score ≤ 10 := by
  simp only [mock_classify_comment]
  rcases is_trade body <;> refine ⟨?_, ?_, ?_, ?_, ?_, ?_⟩ <;> omega

/-- C3: the returned tickers are pairwise distinct, and `topic_type` is
determined solely by how many tickers were found: 0 gives `other`, exactly 1
gives `single_stock`, and 2 or more give `index_macro`. -/
theorem topic_type_determined_by_ticker_count (body : List Char) (mood_draw : Mood) :
    (mock_classify_comment body mood_draw).tickers.Nodup ∧
    (mock_classify_comment body mood_draw).topic_type =
      (if (mock_classify_comment body mood_draw).tickers.length = 0 then TopicType.other
       else if (mock_classify_comment body mood_draw).tickers.length = 1 then
         TopicType.single_stock
       else TopicType.index_macro) := by
  constructor
  · have h : (COMMON_TICKERS.filter (fun t => py_in t (py_upper body))).Nodup :=
      (by decide : COMMON_TICKERS.Nodup).filter _
    simpa [mock_classify_comment, found_tickers] using h
  · simp only [mock_classify_comment]
    by_cases h1 : (found_tickers body).length = 1
    · simp [h1]
    · by_cases h0 : found_tickers body = []
      · simp [h0, h1]
      · have hz : (found_tickers body).length ≠ 0 := by
          simpa [List.length_eq_zero] using h0
        simp [h0, h1, hz]

/-- C4: `trade_direction` is `bullish` exactly when the bullish keyword count
strictly exceeds the bearish one, `bearish` in the strictly opposite case,
and `neutral` otherwise; in particular the declared enum value `mixed` is
never produced. -/
theorem trade_direction_rule (body : List Char) (mood_draw : Mood) :
    (mock_classify_comment body mood_draw).sentiment.trade_direction =
      (if bearish_count body < bullish_count body then Direction.bullish
       else if bullish_count body < bearish_count body then Direction.bearish
       else Direction.neutral) ∧
    (mock_classify_comment body mood_draw).sentiment.trade_direction ≠ Direction.mixed := by
  refine ⟨rfl, ?_⟩
  simp only [mock_classify_comment]
  split
  · simp
  · split <;> simp

/-- C5: `degen_score` equals `clamp(3 + meme_count + (2 if is_trade_plan else
0), 0, 10)` (the code writes `min(10, ...)`; the lower clamp is vacuous since
the operand is at least 3); `is_trade_plan` is exactly the trade-keyword
match, and the meme vocabulary has no duplicate entries, so `meme_count`
counts distinct entries occurring in the lower-cased body. -/
theorem degen_score_clamp_formula (body : List Char) (mood_draw : Mood) :
    (mock_classify_comment body mood_draw).is_trade_plan = is_trade body ∧
    meme_indicators.Nodup ∧
    (mock_classify_comment body mood_draw).degen_score =
      max 0 (min 10 (3 + (meme_count body : Int) + (if is_trade body then 2 else 0))) := by
  refine ⟨rfl, by decide, ?_⟩
  simp only [mock_classify_comment]
  rcases is_trade body <;> omega

/-- C6: the batch summary (count, unique tickers, direction tallies, average
degen score) is invariant under every permutation of the record sequence. -/
theorem summarize_perm_invariant (cs ds : List ClassificationRecord) (h : cs.Perm ds) :
    summarize cs = summarize ds := by
  have hlen := h.length_eq
  have hjoin : ((cs.map (fun c => c.tickers)).flatten).Perm
      ((ds.map (fun c => c.tickers)).flatten) :=
    (h.map (fun c => c.tickers)).flatten
  have hsum := (h.map (fun c => c.degen_score)).sum_eq
  have hbull := h.countP_eq (fun c => c.sentiment.trade_direction == Direction.bullish)
  have hbear := h.countP_eq (fun c => c.sentiment.trade_direction == Direction.bearish)
  simp only [summarize, Summary.mk.injEq, average_degen_score, all_tickers]
  exact ⟨hlen, List.toFinset_eq_of_perm _ _ hjoin, hbull, hbear,
    by rw [hlen, hbull, hbear], by rw [hlen, hsum]⟩

/-- Witness for C6 on a concrete two-record batch and its transposition. -/
theorem summarize_perm_invariant_witness :
    summarize [sample_record_a, sample_record_b] =
      summarize [sample_record_b, sample_record_a] :=
  summarize_perm_invariant _ _ (List.Perm.swap sample_record_b sample_record_a [])

/-- C7: between any two inputs whose extracted features agree on the
trade-plan flag, the one with the larger meme count never gets a strictly
smaller `degen_score` or `meme_score`: both scores are monotone
non-decreasing in `meme_count`. -/
theorem scores_monotone_in_meme_count (b b2 : List Char) (m m2 : Mood)
    (ht : is_trade b = is_trade b2) (hm : meme_count b ≤ meme_count b2) :
    (mock_classify_comment b m).degen_score ≤ (mock_classify_comment b2 m2).degen_score ∧
    (mock_classify_comment b m).meme_score ≤ (mock_classify_comment b2 m2).meme_score := by
  simp only [mock_classify_comment]
  rw [ht]
  rcases is_trade b2 <;> constructor <;> omega

/-- Witness for C7 on bodies with one and with two distinct meme keywords. -/
theorem scores_monotone_in_meme_count_witness :
    (mock_classify_comment ("lol".toList) Mood.cope).degen_score ≤
      (mock_classify_comment ("lol lmao".toList) Mood.confusion).degen_score ∧
    (mock_classify_comment ("lol".toList) Mood.cope).meme_score ≤
      (mock_classify_comment ("lol lmao".toList) Mood.confusion).meme_score :=
  scores_monotone_in_meme_count _ _ _ _ (by decide) (by decide)

/-- C8: with the random draw made explicit, classification is a function of
`(body, draw)` — two calls with the same body and the same seeded source
agree — and the record produced with draw `d2` differs from the one produced
with draw `d1` at most in `primary_mood`, which equals the draw exactly when
`meme_count = 0` and is otherwise fixed to `euphoria`. -/
theorem classify_random_channel_only_mood (body : List Char) (d1 d2 : Mood) :
    mock_classify_comment body d2 =
      { mock_classify_comment body d1 with
          primary_mood := if meme_count body = 0 then d2 else Mood.euphoria } := rfl

/-- C9: every classification record has `degen_score` at least 3 (the base
value, so the documented lower clamp at 0 is never active), and the average
degen score of every non-empty batch of classifier outputs lies in [3, 10]. -/
theorem degen_score_at_least_base (body : List Char) (mood_draw : Mood)
    (cs : List ClassificationRecord) (h1 : cs ≠ [])
    (h2 : ∀ c ∈ cs, ∃ b d, c = mock_classify_comment b d) :
    3 ≤ (mock_classify_comment body mood_draw).degen_score ∧
    ∃ q : ℚ, (summarize cs).average_degen_score = some q ∧ 3 ≤ q ∧ q ≤ 10 := by
  refine ⟨(degen_score_bounds body mood_draw).1, ?_⟩
  have hz : cs.length ≠ 0 := fun hh => h1 (List.length_eq_zero.mp hh)
  have hpos : (0 : ℚ) < (cs.length : ℚ) := by
    exact_mod_cast Nat.pos_of_ne_zero hz
  have hlow : (cs.length : Int) * 3 ≤ (cs.map (fun c => c.degen_score)).sum := by
    have hs := List.card_nsmul_le_sum (cs.map (fun c => c.degen_score)) 3 ?_
    · simpa [nsmul_eq_mul] using hs
    · intro x hx
      rcases List.mem_map.mp hx with ⟨c, hc, rfl⟩
      rcases h2 c hc with ⟨b, d, rfl⟩
      exact (degen_score_bounds b d).1
  have hhigh : (cs.map (fun c => c.degen_score)).sum ≤ (cs.length : Int) * 10 := by
    have hs := List.sum_le_card_nsmul (cs.map (fun c => c.degen_score)) 10 ?_
    · simpa [nsmul_eq_mul] using hs
    · intro x hx
      rcases List.mem_map.mp hx with ⟨c, hc, rfl⟩
      rcases h2 c hc with ⟨b, d, rfl⟩
      exact (degen_score_bounds b d).2
  refine ⟨(((cs.map (fun c => c.degen_score)).sum : Int) : ℚ) / (cs.length : ℚ), ?_, ?_, ?_⟩
  · simp [summarize, average_degen_score, hz]
  · rw [le_div_iff₀ hpos]
    have h3 : 3 * (cs.length : Int) ≤ (cs.map (fun c => c.degen_score)).sum := by linarith
    exact_mod_cast h3
  · rw [div_le_iff₀ hpos]
    have h10 : (cs.map (fun c => c.degen_score)).sum ≤ 10 * (cs.length : Int) := by linarith
    exact_mod_cast h10

/-- Witness for C9 at the one-record batch classifying the empty body. -/
theorem degen_score_at_least_base_witness :
    3 ≤ (mock_classify_comment [] Mood.neutral).degen_score ∧
    ∃ q : ℚ,
      (summarize [mock_classify_comment [] Mood.neutral]).average_degen_score = some q ∧
      3 ≤ q ∧ q ≤ 10 :=
  degen_score_at_least_base [] Mood.neutral [mock_classify_comment [] Mood.neutral]
    (List.cons_ne_nil _ _)
    (fun _ hc => ⟨[], Mood.neutral, List.mem_singleton.mp hc⟩)

/-- C10: every record is a trade plan or commentary (or both): whenever
`is_trade_plan` is false, `is_commentary` is true, so no record is classified
as neither. -/
theorem trade_plan_or_commentary (body : List Char) (mood_draw : Mood) :
    ((mock_classify_comment body mood_draw).is_trade_plan
      || (mock_classify_comment body mood_draw).is_commentary) = true := by
  simp only [mock_classify_comment]
  rcases is_trade body <;> simp

end DegenIndex
